import Mathlib

/-!
Shallow embedding of `src/currency_utils.py` from the tool-currency
repository, and theorems settling the specification claims about it.

Modelling conventions:
* Python `dict`s are association lists (`List (κ × α)`) with dict-update
  semantics (`upsert` replaces in place or appends); dicts preserve
  insertion order, and so do these lists.
* Python floats are modelled as `ℚ`; every arithmetic fact proved here
  (x/x = 1, x/1 = x, 1*(1+v) = 1+v) also holds exactly for the IEEE
  doubles the program manipulates at these concrete values.
* ISO date strings `YYYY-MM-DD` are in order-preserving bijection with
  day numbers, so calendar dates are modelled as `Int` day indices and
  `today - timedelta(days=i)` as `today - i`.
* `time.time()` values are integer (`ℤ`) timestamps supplied by the
  environment; every claim about time compares `now - t` against an exact
  integer threshold, so integer instants carry the full content.
* The process-global mutable caches (`_exchange_rates_cache`,
  `_historical_rates_cache`, `_last_updated`) and the two cache files on
  disk form an explicit `CacheState` threaded through every function.
* I/O failure points (cache directory creation, file write) are boolean
  flags in the environment; a missing or corrupt cache file is `none`
  (the code treats both identically: full miss on read, empty dict on
  merge before write).
-/

/-- Association-list lookup, the model of Python `d[k]` / `d.get(k)`. -/
def alookup {κ α : Type} [DecidableEq κ] (k : κ) : List (κ × α) → Option α
  | [] => none
  | (k', v) :: t => if k' = k then some v else alookup k t

/-- Association-list update with Python-dict semantics: replace the value in
place if the key exists, otherwise append at the end. -/
def upsert {κ α : Type} [DecidableEq κ] (l : List (κ × α)) (k : κ) (v : α) :
    List (κ × α) :=
  match l with
  | [] => [(k, v)]
  | (k', v') :: t => if k' = k then (k, v) :: t else (k', v') :: upsert t k v

/-- Python truthiness of an optional dict: `None` and the empty dict are
falsy, a non-empty dict is truthy (models `if cached_rates:` etc.). -/
def truthy {α : Type} : Option (List α) → Bool
  | some (_ :: _) => true
  | _ => false

/-- A mapping from currency code to rate (Python dict of floats). -/
abbrev RateMapping := List (String × ℚ)

/-- A historical series: date (day index) to rate mapping. -/
abbrev HistSeries := List (Int × RateMapping)

/-- The fixed sample table `base_rates` of `get_sample_exchange_rates`
(lines 366-379), rates against USD. -/
def sample_base_rates : RateMapping :=
  [("USD", 1), ("EUR", 93/100), ("GBP", 79/100), ("JPY", 15456/100),
   ("CAD", 136/100), ("AUD", 151/100), ("CHF", 91/100), ("CNY", 723/100),
   ("INR", 8334/100), ("BRL", 504/100), ("MXN", 1662/100),
   ("SGD", 134/100)]

/-- `get_sample_exchange_rates` (lines 353-397): rebases the fixed table to
`base_currency`; an unknown base falls back to the un-rebased USD table
(after a warning print, which the model drops). -/
def get_sample_exchange_rates (base_currency : String) : RateMapping :=
  if base_currency ≠ "USD" then
    match alookup base_currency sample_base_rates with
    | none => sample_base_rates
    | some base_value =>
        sample_base_rates.map (fun p => (p.1, p.2 / base_value))
  else
    sample_base_rates

/-!
The global pseudo-random generator of Python's `random` module, as used by
`get_sample_historical_rate` (lines 497-527).  Its state after `seed(s)` is
fully determined by `s`, and each `uniform` call consumes one draw; we model
the state as the pair (last seed string, number of draws since seeding) and
the generator's output stream as an abstract function
`draw : String → Nat → ℚ` (draw number `n` after seeding with `s`).  The
real `uniform(-0.03, 0.03)` output lies in `[-0.03, 0.03]`; theorems that
need this range take it as a hypothesis on `draw`.
-/

/-- State of the global random generator: last seed, draws since seeding. -/
abbrev RandState := String × Nat

/-- `random.seed(s)`: resets the generator state deterministically from `s`,
discarding the previous state. -/
def random_seed (s : String) (_ : RandState) : RandState := (s, 0)

/-- `random.uniform(-0.03, 0.03)`: emits the next draw of the stream fixed
by the current seed and advances the state. -/
def random_uniform (draw : String → Nat → ℚ) (rs : RandState) :
    ℚ × RandState :=
  (draw rs.1 rs.2, (rs.1, rs.2 + 1))

/-- The per-currency loop of `get_sample_historical_rate` (lines 517-525):
for each `(currency, rate)` pair, reseed from `f"{currency}_{days_ago}"`,
draw a variation and emit `rate * (1 + variation)`, threading the generator
state. -/
def sampleHistGo (draw : String → Nat → ℚ) (days_ago : Nat) :
    RateMapping → RandState → RateMapping × RandState
  | [], rs => ([], rs)
  | (c, r) :: t, rs =>
    let rs1 := random_seed (c ++ "_" ++ toString days_ago) rs
    let (variation, rs2) := random_uniform draw rs1
    let (rest, rs3) := sampleHistGo draw days_ago t rs2
    ((c, r * (1 + variation)) :: rest, rs3)

/-- `get_sample_historical_rate` (lines 497-527) with the generator state
made explicit: perturb every entry of `get_sample_exchange_rates base`. -/
def get_sample_historical_rate_s (draw : String → Nat → ℚ)
    (base_currency : String) (days_ago : Nat) (rs : RandState) :
    RateMapping × RandState :=
  sampleHistGo draw days_ago (get_sample_exchange_rates base_currency) rs

/-- `get_sample_historical_rate` as the pure function it effectively is:
every draw is immediately preceded by a reseed, so the incoming generator
state is irrelevant (proved in `sampleHistGo_fst`); we run it from a fixed
initial state. -/
def get_sample_historical_rate (draw : String → Nat → ℚ)
    (base_currency : String) (days_ago : Nat) : RateMapping :=
  (get_sample_historical_rate_s draw base_currency days_ago ("", 0)).1

/-- Cache expiry thresholds `_cache_expiry` (lines 17-20), in seconds. -/
def cache_expiry_exchange : ℤ := 3600

/-- Expiry threshold for the historical cache: 24 hours. -/
def cache_expiry_historical : ℤ := 86400

/-- The process state the module's globals and cache files form:
`_exchange_rates_cache`, `_historical_rates_cache`, `_last_updated`, and
the parsed contents of `exchange_rates.json` / `historical_rates.json`
(`none` = file absent or corrupt; disk entries carry their timestamp). -/
structure CacheState where
  exMem : List (String × RateMapping)
  histMem : List (String × HistSeries)
  lastUpd : List (String × ℤ)
  exDisk : Option (List (String × (RateMapping × ℤ)))
  histDisk : Option (List (String × (HistSeries × ℤ)))

/-- The empty start-of-process state: all caches empty, no cache files. -/
def emptyState : CacheState := ⟨[], [], [], none, none⟩

/-- `_last_updated` key for current rates (line 60). -/
def exkey (base_currency : String) : String :=
  "exchange_rates_" ++ base_currency

/-- `_last_updated` key for a historical cache key (line 64). -/
def histkey (k : String) : String := "historical_rates_" ++ k

/-- Composite historical cache key `f"{base}_{n}"` (lines 62, 92, 130). -/
def histck (base_currency : String) (n : Nat) : String :=
  base_currency ++ "_" ++ toString n

/-- Result of one `requests.get` to the current-rates API endpoint, as
`get_exchange_rates` distinguishes them: an HTTP-level error
(`raise_for_status` raises), a malformed body (`response.json()` raises),
or a parsed payload with its `result == 'success'` flag and optional
`rates` and `time_last_update_utc` fields (absence of either raises
`KeyError` at the access site). -/
inductive ApiOutcome
  | httpError
  | parseError
  | payload (ok : Bool) (rates : Option RateMapping) (ts : Option String)

/-- Outcome of one per-day request in `get_historical_rates`' fetch loop:
a parsed success (`status 200` and `result == 'success'`), a soft failure
(non-200 status or unsuccessful result, which substitutes sample data for
that day), or a raised exception, which aborts the whole loop and clears
`api_success` (lines 444-471). -/
inductive HistDayResult
  | ok (rates : RateMapping)
  | softFail
  | raiseErr

/-- The environment of one call: the clock, today's date, network
reachability (the probe to 8.8.8.8), the current-rates API response, the
per-day historical API responses, whether the cache directory is usable
(`get_cache_file_path` returns a path), whether a file write succeeds, and
the random generator's output stream. -/
structure Env where
  now : ℤ
  today : Int
  network : Bool
  api : ApiOutcome
  fetch : Nat → HistDayResult
  dirOk : Bool
  writeOk : Bool
  draw : String → Nat → ℚ

/-- `save_to_cache('exchange_rates', data, base)` (lines 44-105): update the
memory tier and `_last_updated` first (these dict writes cannot fail), then
best-effort merge into the disk file; a directory or write failure leaves
the disk unchanged and returns `False`. -/
def save_to_cache_ex (env : Env) (st : CacheState) (base_currency : String)
    (data : RateMapping) : Bool × CacheState :=
  let st1 : CacheState :=
    { st with exMem := upsert st.exMem base_currency data,
              lastUpd := upsert st.lastUpd (exkey base_currency) env.now }
  if !env.dirOk then (false, st1)
  else
    let fileData := st1.exDisk.getD []
    let fileData1 := upsert fileData base_currency (data, env.now)
    if env.writeOk then (true, { st1 with exDisk := some fileData1 })
    else (false, st1)

/-- `save_to_cache('historical_rates', data, base)` (lines 44-105): the key
is derived from the payload as `f"{base}_{len(data)}"`. -/
def save_to_cache_hist (env : Env) (st : CacheState) (base_currency : String)
    (data : HistSeries) : Bool × CacheState :=
  let k := histck base_currency data.length
  let st1 : CacheState :=
    { st with histMem := upsert st.histMem k data,
              lastUpd := upsert st.lastUpd (histkey k) env.now }
  if !env.dirOk then (false, st1)
  else
    let fileData := st1.histDisk.getD []
    let fileData1 := upsert fileData k (data, env.now)
    if env.writeOk then (true, { st1 with histDisk := some fileData1 })
    else (false, st1)

/-- `load_from_cache('exchange_rates', base)` (lines 107-180): memory tier
first (expiry from `_last_updated`, default 0), then the disk file; a fresh
disk hit is promoted into the memory tier. Returns (data, is_expired) and
the possibly-promoted state. -/
def load_from_cache_ex (dirOk : Bool) (now : ℤ) (st : CacheState)
    (base_currency : String) : Option RateMapping × Bool × CacheState :=
  match alookup base_currency st.exMem with
  | some v =>
    let t := (alookup (exkey base_currency) st.lastUpd).getD 0
    (some v, decide (now - t > cache_expiry_exchange), st)
  | none =>
    if !dirOk then (none, true, st)
    else
      match st.exDisk with
      | none => (none, true, st)
      | some file =>
        match alookup base_currency file with
        | some (v, ts) =>
          if now - ts > cache_expiry_exchange then (some v, true, st)
          else
            (some v, false,
             { st with exMem := upsert st.exMem base_currency v,
                       lastUpd := upsert st.lastUpd (exkey base_currency) ts })
        | none => (none, true, st)

/-- `load_from_cache('historical_rates', base, days)` (lines 107-180): both
the memory-tier and disk-tier branches are guarded by `and days`, so a
falsy day-count (0 / None) always misses. -/
def load_from_cache_hist (dirOk : Bool) (now : ℤ) (st : CacheState)
    (base_currency : String) (days : Nat) :
    Option HistSeries × Bool × CacheState :=
  if days = 0 then (none, true, st)
  else
    let k := histck base_currency days
    match alookup k st.histMem with
    | some v =>
      let t := (alookup (histkey k) st.lastUpd).getD 0
      (some v, decide (now - t > cache_expiry_historical), st)
    | none =>
      if !dirOk then (none, true, st)
      else
        match st.histDisk with
        | none => (none, true, st)
        | some file =>
          match alookup k file with
          | some (v, ts) =>
            if now - ts > cache_expiry_historical then (some v, true, st)
            else
              (some v, false,
               { st with histMem := upsert st.histMem k v,
                         lastUpd := upsert st.lastUpd (histkey k) ts })
          | none => (none, true, st)

/-- Provenance tag of a `get_exchange_rates` result; the Python code encodes
it in the returned time string ("(cached)", "(offline mode)",
"(sample data)", or the API's own update time for a live fetch). -/
inductive Provenance
  | cached
  | offline
  | sample
  | live
deriving DecidableEq

/-- The stale-cache-else-sample fallback that `get_exchange_rates` performs
on no-network, API failure and exception paths (lines 296-307, 324-335,
337-351): reload ignoring expiry; a truthy (non-empty) hit is served as
offline data, otherwise sample data. -/
def fallback_offline (env : Env) (st : CacheState) (base_currency : String) :
    RateMapping × Provenance × CacheState :=
  match load_from_cache_ex env.dirOk env.now st base_currency with
  | (some (x :: xs), _, st1) => (x :: xs, Provenance.offline, st1)
  | (_, _, st1) =>
      (get_sample_exchange_rates base_currency, Provenance.sample, st1)

/-- The refresh part of `get_exchange_rates` (lines 286-351), reached when
the fresh-cache check did not return: no network → offline fallback; HTTP
error, parse error or missing `rates` key (all reaching the `except`
clause) → offline fallback; API success with both fields → cache and
return live; API success whose `time_last_update_utc` access raises
`KeyError` → offline fallback, but after `save_to_cache` has already run;
API non-success → offline fallback. -/
def refresh_exchange_rates (env : Env) (st : CacheState)
    (base_currency : String) : RateMapping × Provenance × CacheState :=
  if !env.network then fallback_offline env st base_currency
  else
    match env.api with
    | ApiOutcome.httpError => fallback_offline env st base_currency
    | ApiOutcome.parseError => fallback_offline env st base_currency
    | ApiOutcome.payload ok rates? ts? =>
      if ok then
        match rates? with
        | some rates =>
          let (_, st2) := save_to_cache_ex env st base_currency rates
          match ts? with
          | some _ => (rates, Provenance.live, st2)
          | none => fallback_offline env st2 base_currency
        | none => fallback_offline env st base_currency
      else fallback_offline env st base_currency

/-- `get_exchange_rates` (lines 256-351): a truthy, unexpired cache hit is
returned at once unless `force_refresh`; otherwise the refresh part runs on
the possibly-promoted state the first load left behind. -/
def get_exchange_rates (env : Env) (st : CacheState) (base_currency : String)
    (force_refresh : Bool) : RateMapping × Provenance × CacheState :=
  if force_refresh then refresh_exchange_rates env st base_currency
  else
    let r := load_from_cache_ex env.dirOk env.now st base_currency
    if truthy r.1 && !r.2.1 then (r.1.getD [], Provenance.cached, r.2.2)
    else refresh_exchange_rates env r.2.2 base_currency

/-- The fetch loop of `get_historical_rates` (lines 440-471): for
`i = 0 .. days-1` fetch day `today - i`; a parsed success stores the API
rates and sets `api_success`, a soft failure stores sample data for that
day, a raised exception aborts the loop, keeping the partial data and
forcing `api_success = False`. -/
def fetchDaysGo (env : Env) (base_currency : String) :
    Nat → Nat → HistSeries → Bool → HistSeries × Bool
  | _, 0, acc, succ => (acc, succ)
  | i, n + 1, acc, succ =>
    match env.fetch i with
    | HistDayResult.ok rates =>
        fetchDaysGo env base_currency (i + 1) n
          (acc ++ [(env.today - (i : Int), rates)]) true
    | HistDayResult.softFail =>
        fetchDaysGo env base_currency (i + 1) n
          (acc ++ [(env.today - (i : Int),
                    get_sample_historical_rate env.draw base_currency i)])
          succ
    | HistDayResult.raiseErr => (acc, false)

/-- Entry point of the fetch loop: empty dict, `api_success = False`. -/
def fetchDays (env : Env) (base_currency : String) (days : Nat) :
    HistSeries × Bool :=
  fetchDaysGo env base_currency 0 days [] false

/-- The cache backfill of `get_historical_rates` (lines 478-482): every
date present in the cached series but absent from the assembled data is
appended — note: every cached date, not only dates of the requested
window. -/
def backfill (data : HistSeries) (cached : HistSeries) : HistSeries :=
  cached.foldl
    (fun acc p => if (alookup p.1 acc).isSome then acc else acc ++ [p]) data

/-- The sample fill of `get_historical_rates` (lines 485-489): every date
of the requested window still missing gets sample data. -/
def sampleFill (env : Env) (base_currency : String) (days : Nat)
    (data : HistSeries) : HistSeries :=
  (List.range days).foldl
    (fun acc (i : Nat) =>
      if (alookup (env.today - (i : Int)) acc).isSome then acc
      else
        acc ++ [(env.today - (i : Int),
                 get_sample_historical_rate env.draw base_currency i)])
    data

/-- `get_historical_rates` (lines 399-495).  Branches, in source order:
fresh truthy cache hit unless `force_refresh`; no network → truthy stale
cache hit returned as-is; otherwise run the fetch loop (only if the network
is up); if not every fetch succeeded or the data is short, backfill from
the stale cache and then from sample data; persist only a series of exactly
`days` entries. -/
def get_historical_rates (env : Env) (st : CacheState)
    (base_currency : String) (days : Nat) (force_refresh : Bool) :
    HistSeries × CacheState :=
  let first : Option HistSeries × CacheState :=
    if force_refresh then (none, st)
    else
      let r := load_from_cache_hist env.dirOk env.now st base_currency days
      (if truthy r.1 && !r.2.1 then some (r.1.getD []) else none, r.2.2)
  match first with
  | (some series, st1) => (series, st1)
  | (none, st1) =>
    let offline : Option HistSeries × CacheState :=
      if env.network then (none, st1)
      else
        let r := load_from_cache_hist env.dirOk env.now st1 base_currency days
        (if truthy r.1 then some (r.1.getD []) else none, r.2.2)
    match offline with
    | (some series, st2) => (series, st2)
    | (none, st2) =>
      let fetched :=
        if env.network then fetchDays env base_currency days else ([], false)
      let data0 := fetched.1
      let api_success := fetched.2
      let assembled : HistSeries × CacheState :=
        if !api_success || data0.length < days then
          let r :=
            load_from_cache_hist env.dirOk env.now st2 base_currency days
          let data1 := backfill data0 (r.1.getD [])
          let data2 :=
            if data1.length < days then
              sampleFill env base_currency days data1
            else data1
          (data2, r.2.2)
        else (data0, st2)
      let data2 := assembled.1
      let st3 := assembled.2
      if data2.length = days then
        let (_, st4) := save_to_cache_hist env st3 base_currency data2
        (data2, st4)
      else (data2, st3)

/-- The body of `convert_currency` (lines 529-564) over an abstract rate
resolution outcome: the same-currency identity short-circuits before any
lookup; a negative amount is coerced to its absolute value; a raised
resolution (`Except.error`) is caught and becomes the failure sentinel
`none`; a missing target code also yields `none`. -/
def convert_currency_core (resolve : Except Unit (RateMapping × CacheState))
    (amount : ℚ) (from_currency to_currency : String) : Option ℚ :=
  if from_currency = to_currency then some amount
  else
    let amount1 := if amount < 0 then |amount| else amount
    match resolve with
    | Except.error _ => none
    | Except.ok (rates, _) =>
      match alookup to_currency rates with
      | some r => some (amount1 * r)
      | none => none

/-- `convert_currency` proper: resolves rates via
`get_exchange_rates(from_currency)` (which, as embedded, always returns). -/
def convert_currency (env : Env) (st : CacheState) (amount : ℚ)
    (from_currency to_currency : String) : Option ℚ :=
  convert_currency_core
    (Except.ok
      (let r := get_exchange_rates env st from_currency false
       (r.1, r.2.2)))
    amount from_currency to_currency

/-- A degenerate draw stream (variation 0 for every seed), inside the
`uniform(-0.03, 0.03)` range. -/
def drawZero : String → Nat → ℚ := fun _ _ => 0

/-- Concrete environment: network up, every per-day historical API call
fails softly, current-rates API errors, disk healthy, today = day 10. -/
def envOvershoot : Env :=
  { now := 50000, today := 10, network := true,
    api := ApiOutcome.httpError, fetch := fun _ => HistDayResult.softFail,
    dirOk := true, writeOk := true, draw := drawZero }

/-- The same environment one day earlier: today = day 9. -/
def envYesterday : Env := { envOvershoot with now := 10000, today := 9 }

/-- The process state a day-9 call leaves behind, starting from a fresh
process: it assembles and caches a full 7-day series for dates 9 down
to 3 under key `USD_7`. -/
def stOvershoot : CacheState :=
  (get_historical_rates envYesterday emptyState "USD" 7 false).2

/-- Concrete environment: network up, current-rates API answers
`result == 'success'` with an empty `rates` object and an update time. -/
def envEmptyApi : Env :=
  { now := 0, today := 0, network := true,
    api := ApiOutcome.payload true (some []) (some "t"),
    fetch := fun _ => HistDayResult.softFail,
    dirOk := true, writeOk := true, draw := drawZero }

/-- Concrete environment: network down, disk healthy. -/
def envOffline : Env :=
  { now := 0, today := 0, network := false,
    api := ApiOutcome.httpError, fetch := fun _ => HistDayResult.softFail,
    dirOk := true, writeOk := true, draw := drawZero }

/-- A current-rates API outcome is a success carrying an empty `rates`
object together with an update time exactly when `get_exchange_rates`
would hand that empty object straight through. -/
def apiEmptySuccess : ApiOutcome → Bool
  | ApiOutcome.payload true (some []) (some _) => true
  | _ => false

/-- A concrete memory-tier cache state for witnesses: USD rates cached at
time 100. -/
def stWitness : CacheState :=
  { exMem := [("USD", [("EUR", 93/100)])], histMem := [],
    lastUpd := [(exkey "USD", 100)], exDisk := none, histDisk := none }

/-- A concrete disk-tier cache state for witnesses: a USD historical
series on disk, timestamped 200, nothing in memory. -/
def stWitnessDisk : CacheState :=
  { exMem := [], histMem := [], lastUpd := [],
    exDisk := none,
    histDisk := some [(histck "USD" 2,
                       ([(5, [("USD", 1)]), (4, [("USD", 1)])], 200))] }

/-- A current-rates fetch attempt fails (the spec's `FetchFailure`,
before anything was cached): HTTP-level error, malformed body,
`result != 'success'`, or a success whose `rates` key is missing; a
success that carries a rates object is not a fetch failure. -/
def apiFetchFailed : ApiOutcome → Bool
  | ApiOutcome.httpError => true
  | ApiOutcome.parseError => true
  | ApiOutcome.payload false _ _ => true
  | ApiOutcome.payload true none _ => true
  | ApiOutcome.payload true (some _) _ => false

/-- The offline environment with the clock at 50. -/
def envSaveAt50 : Env := { envOffline with now := 50 }

/-- The state `save_to_cache('historical_rates', {}, 'USD')` leaves at
time 50: the empty series is stored (with its timestamp) under the
day-count-0 key `USD_0`. -/
def stZeroDays : CacheState :=
  (save_to_cache_hist envSaveAt50 emptyState "USD" ([] : HistSeries)).2

/-!  Helper lemmas about the association-list model. -/

theorem alookup_upsert_self {κ α : Type} [DecidableEq κ]
    (l : List (κ × α)) (k : κ) (v : α) : alookup k (upsert l k v) = some v := by
  induction l with
  | nil => simp [upsert, alookup]
  | cons p t ih =>
    by_cases h : p.1 = k
    · simp [upsert, alookup, h]
    · simpa [upsert, alookup, h] using ih

theorem alookup_map_keydep {κ α β : Type} [DecidableEq κ]
    (f : κ → α → β) (l : List (κ × α)) (c : κ) :
    alookup c (l.map (fun p => (p.1, f p.1 p.2))) =
      (alookup c l).map (f c) := by
  induction l with
  | nil => simp [alookup]
  | cons p t ih =>
    by_cases h : p.1 = c
    · simp [alookup, h]
    · simpa [alookup, h] using ih

theorem alookup_values_ne_zero (l : List (String × ℚ))
    (hl : ∀ p ∈ l, p.2 ≠ 0) (c : String) (v : ℚ)
    (h : alookup c l = some v) : v ≠ 0 := by
  induction l with
  | nil => simp [alookup] at h
  | cons p t ih =>
    rw [alookup] at h
    by_cases hc : p.1 = c
    · rw [if_pos hc] at h
      cases h
      exact hl p (List.mem_cons_self p t)
    · rw [if_neg hc] at h
      exact ih (fun q hq => hl q (List.mem_cons_of_mem p hq)) h

theorem truthy_getD_ne_nil {α : Type} (o : Option (List α))
    (h : truthy o = true) : o.getD [] ≠ [] := by
  match o with
  | none => simp [truthy] at h
  | some [] => simp [truthy] at h
  | some (x :: xs) => simp

/-- The fixed sample table rebases to a non-empty mapping for every base. -/
theorem get_sample_exchange_rates_ne_nil (base_currency : String) :
    get_sample_exchange_rates base_currency ≠ [] := by
  unfold get_sample_exchange_rates
  by_cases h : base_currency = "USD"
  · simp [h, sample_base_rates]
  · rw [if_pos (by simpa using h)]
    cases halo : alookup base_currency sample_base_rates with
    | none => simp [sample_base_rates]
    | some v => simp [sample_base_rates]

/-- The offline fallback always yields a non-empty mapping: a truthy cache
hit is non-empty by definition, and the sample table is non-empty. -/
theorem fallback_offline_ne_nil (env : Env) (st : CacheState)
    (base_currency : String) :
    (fallback_offline env st base_currency).1 ≠ [] := by
  unfold fallback_offline
  rcases h : load_from_cache_ex env.dirOk env.now st base_currency with
    ⟨c, e, st1⟩
  match c with
  | none => simpa using get_sample_exchange_rates_ne_nil base_currency
  | some [] => simpa using get_sample_exchange_rates_ne_nil base_currency
  | some (x :: xs) => simp

/-- Both memory-tier fields of the state after `save_to_cache` for current
rates, in every I/O-failure scenario. -/
theorem save_to_cache_ex_mem (env : Env) (st : CacheState)
    (base_currency : String) (data : RateMapping) :
    ((save_to_cache_ex env st base_currency data).2).exMem =
        upsert st.exMem base_currency data ∧
      ((save_to_cache_ex env st base_currency data).2).lastUpd =
        upsert st.lastUpd (exkey base_currency) env.now := by
  unfold save_to_cache_ex
  rcases env with ⟨now, today, network, api, fetch, dirOk, writeOk, draw⟩
  cases dirOk <;> cases writeOk <;> simp

/-- Both memory-tier fields of the state after `save_to_cache` for
historical rates, in every I/O-failure scenario. -/
theorem save_to_cache_hist_mem (env : Env) (st : CacheState)
    (base_currency : String) (data : HistSeries) :
    ((save_to_cache_hist env st base_currency data).2).histMem =
        upsert st.histMem (histck base_currency data.length) data ∧
      ((save_to_cache_hist env st base_currency data).2).lastUpd =
        upsert st.lastUpd (histkey (histck base_currency data.length))
          env.now := by
  unfold save_to_cache_hist
  rcases env with ⟨now, today, network, api, fetch, dirOk, writeOk, draw⟩
  cases dirOk <;> cases writeOk <;> simp

/-- The element-wise description of the historical perturbation loop: the
produced mapping is independent of the incoming generator state, because
each entry reseeds before drawing. -/
theorem sampleHistGo_fst (draw : String → Nat → ℚ) (days_ago : Nat)
    (l : RateMapping) (rs : RandState) :
    (sampleHistGo draw days_ago l rs).1 =
      l.map (fun p =>
        (p.1, p.2 * (1 + draw (p.1 ++ "_" ++ toString days_ago) 0))) := by
  induction l generalizing rs with
  | nil => simp [sampleHistGo]
  | cons p t ih =>
    rcases p with ⟨c, r⟩
    simp [sampleHistGo, random_seed, random_uniform, ih]

/-- Rebasing, element-wise: when the base is in the fixed table with value
`base_value`, every entry of the rebased table is the default entry divided
by `base_value` (for USD the division is by 1). -/
theorem rebase_lookup (base_currency : String) (base_value : ℚ)
    (h : alookup base_currency sample_base_rates = some base_value)
    (c : String) :
    alookup c (get_sample_exchange_rates base_currency) =
      (alookup c sample_base_rates).map (fun r => r / base_value) := by
  unfold get_sample_exchange_rates
  by_cases hb : base_currency = "USD"
  · subst hb
    have h1 : alookup "USD" sample_base_rates = some 1 := by decide
    rw [h1] at h
    have hv : base_value = 1 := (Option.some.inj h).symm
    subst hv
    rw [if_neg (by simp)]
    cases halo : alookup c sample_base_rates <;> simp
  · rw [if_pos (by simpa using hb), h]
    exact alookup_map_keydep (fun _ r => r / base_value) sample_base_rates c

/-- Every rate in the fixed sample table is non-zero. -/
theorem sample_values_nz : ∀ p ∈ sample_base_rates, p.2 ≠ 0 := by
  intro p hp
  unfold sample_base_rates at hp
  simp only [List.mem_cons, List.not_mem_nil, or_false] at hp
  rcases hp with rfl | rfl | rfl | rfl | rfl | rfl | rfl | rfl | rfl | rfl |
    rfl | rfl <;> norm_num

/-- A base present in the fixed table maps to exactly 1 in its own rebased
sample table. -/
theorem base_entry_one (base_currency : String) (base_value : ℚ)
    (h : alookup base_currency sample_base_rates = some base_value) :
    alookup base_currency (get_sample_exchange_rates base_currency) =
      some 1 := by
  rw [rebase_lookup base_currency base_value h base_currency, h]
  have hnz : base_value ≠ 0 :=
    alookup_values_ne_zero sample_base_rates sample_values_nz base_currency
      base_value h
  simp [div_self hnz]

/-- Memory-tier hit of `load_from_cache('exchange_rates', ...)`: the stored
value is returned and the flag compares `now` against the entry's
`_last_updated` timestamp. -/
theorem load_ex_mem_lookup (dirOk : Bool) (now : ℤ) (st : CacheState)
    (base_currency : String) (v : RateMapping) (t : ℤ)
    (h1 : alookup base_currency st.exMem = some v)
    (h2 : alookup (exkey base_currency) st.lastUpd = some t) :
    load_from_cache_ex dirOk now st base_currency =
      (some v, decide (now - t > cache_expiry_exchange), st) := by
  simp only [load_from_cache_ex, h1, h2, Option.getD_some]

/-- Disk-tier hit of `load_from_cache('exchange_rates', ...)` on a memory
miss: the stored value is returned and the flag compares `now` against the
entry's on-disk timestamp. -/
theorem load_ex_disk_lookup (now : ℤ) (st : CacheState)
    (base_currency : String) (v : RateMapping) (ts : ℤ)
    (file : List (String × (RateMapping × ℤ)))
    (h1 : alookup base_currency st.exMem = none)
    (h2 : st.exDisk = some file)
    (h3 : alookup base_currency file = some (v, ts)) :
    (load_from_cache_ex true now st base_currency).1 = some v ∧
      (load_from_cache_ex true now st base_currency).2.1 =
        decide (now - ts > cache_expiry_exchange) := by
  simp only [load_from_cache_ex, h1, h2, h3]
  by_cases hc : now - ts > cache_expiry_exchange <;> simp [hc]

/-- Memory-tier hit of `load_from_cache('historical_rates', ...)` for a
truthy day-count. -/
theorem load_hist_mem_lookup (dirOk : Bool) (now : ℤ) (st : CacheState)
    (base_currency : String) (days : Nat) (v : HistSeries) (t : ℤ)
    (hd : days ≠ 0)
    (h1 : alookup (histck base_currency days) st.histMem = some v)
    (h2 : alookup (histkey (histck base_currency days)) st.lastUpd = some t) :
    load_from_cache_hist dirOk now st base_currency days =
      (some v, decide (now - t > cache_expiry_historical), st) := by
  simp only [load_from_cache_hist, hd, h1, h2, Option.getD_some, if_false,
    ite_false]

/-- Disk-tier hit of `load_from_cache('historical_rates', ...)` on a memory
miss, for a truthy day-count. -/
theorem load_hist_disk_lookup (now : ℤ) (st : CacheState)
    (base_currency : String) (days : Nat) (v : HistSeries) (ts : ℤ)
    (file : List (String × (HistSeries × ℤ)))
    (hd : days ≠ 0)
    (h1 : alookup (histck base_currency days) st.histMem = none)
    (h2 : st.histDisk = some file)
    (h3 : alookup (histck base_currency days) file = some (v, ts)) :
    (load_from_cache_hist true now st base_currency days).1 = some v ∧
      (load_from_cache_hist true now st base_currency days).2.1 =
        decide (now - ts > cache_expiry_historical) := by
  simp only [load_from_cache_hist, hd, h1, h2, h3, if_false, ite_false]
  by_cases hc : now - ts > cache_expiry_historical <;> simp [hc]

/-- The refresh part of `get_exchange_rates` yields a non-empty mapping
whenever the API response is not a success carrying an empty rates object
with an update time. -/
theorem refresh_exchange_rates_ne_nil (env : Env) (st : CacheState)
    (base_currency : String) (h : apiEmptySuccess env.api = false) :
    (refresh_exchange_rates env st base_currency).1 ≠ [] := by
  unfold refresh_exchange_rates
  by_cases hn : env.network
  · rw [hn]
    cases ha : env.api with
    | httpError => simpa using fallback_offline_ne_nil env st base_currency
    | parseError => simpa using fallback_offline_ne_nil env st base_currency
    | payload ok rates? ts? =>
      cases ok with
      | false => simpa using fallback_offline_ne_nil env st base_currency
      | true =>
        cases rates? with
        | none => simpa using fallback_offline_ne_nil env st base_currency
        | some rates =>
          rcases hsave : save_to_cache_ex env st base_currency rates with
            ⟨bw, st2⟩
          cases ts? with
          | none =>
            simpa [hsave] using fallback_offline_ne_nil env st2 base_currency
          | some ts =>
            rw [ha] at h
            cases rates with
            | nil => simp [apiEmptySuccess] at h
            | cons x xs => simp [hsave]
  · simp only [hn]
    simpa using fallback_offline_ne_nil env st base_currency

/-- A full miss of `load_from_cache('exchange_rates', ...)` (no value from
either tier) returns exactly `(None, True)` and leaves the state
unchanged — every state-changing branch is a hit. -/
theorem load_ex_miss (dirOk : Bool) (now : ℤ) (st : CacheState)
    (base_currency : String)
    (h : (load_from_cache_ex dirOk now st base_currency).1 = none) :
    load_from_cache_ex dirOk now st base_currency = (none, true, st) := by
  unfold load_from_cache_ex at h ⊢
  cases hm : alookup base_currency st.exMem with
  | some v => simp [hm] at h
  | none =>
    simp only [hm] at h ⊢
    cases dirOk with
    | false => simp
    | true =>
      simp only [Bool.not_true, Bool.false_eq_true, if_false] at h ⊢
      cases hdisk : st.exDisk with
      | none => simp
      | some file =>
        simp only [hdisk] at h ⊢
        cases hf : alookup base_currency file with
        | none => simp [hf]
        | some p =>
          rcases p with ⟨v, ts⟩
          simp only [hf] at h
          by_cases hexp : now - ts > cache_expiry_exchange
          · simp [hexp] at h
          · simp [hexp] at h

/-- On a full cache miss, `fallback_offline` yields the sample table with
sample provenance and the unchanged state. -/
theorem fallback_offline_miss (env : Env) (st : CacheState)
    (base_currency : String)
    (h : (load_from_cache_ex env.dirOk env.now st base_currency).1 = none) :
    fallback_offline env st base_currency =
      (get_sample_exchange_rates base_currency, Provenance.sample, st) := by
  unfold fallback_offline
  rw [load_ex_miss env.dirOk env.now st base_currency h]

/-- C6: for every base currency present in the fixed sample table,
`get_sample_exchange_rates(base)` maps every currency to the default USD
table's entry divided by the default entry for `base`; in particular the
EUR table has EUR ↦ 1 and USD ↦ 1/0.93. -/
theorem C6_rebase :
    (∀ base_currency base_value,
        alookup base_currency sample_base_rates = some base_value →
        ∀ c, alookup c (get_sample_exchange_rates base_currency) =
          (alookup c sample_base_rates).map (fun r => r / base_value)) ∧
      alookup "EUR" (get_sample_exchange_rates "EUR") = some 1 ∧
      alookup "USD" (get_sample_exchange_rates "EUR") =
        some (1 / (93/100)) := by
  refine ⟨rebase_lookup, base_entry_one "EUR" (93/100) rfl, ?_⟩
  rw [rebase_lookup "EUR" (93/100) rfl "USD"]
  rfl

/-- C6 witness: the general rebasing law applied at base EUR, currency
GBP. -/
theorem C6_rebase_witness :
    alookup "GBP" (get_sample_exchange_rates "EUR") =
      (alookup "GBP" sample_base_rates).map (fun r => r / (93/100)) :=
  C6_rebase.1 "EUR" (93/100) rfl "GBP"

/-- C7: a base currency absent from the fixed sample table does not fail:
`get_sample_exchange_rates` returns the un-rebased default USD table. -/
theorem C7_unknown_base :
    ∀ base_currency, alookup base_currency sample_base_rates = none →
      get_sample_exchange_rates base_currency = sample_base_rates := by
  intro b h
  unfold get_sample_exchange_rates
  by_cases hb : b = "USD"
  · subst hb
    exact absurd h (by simp [alookup, sample_base_rates])
  · rw [if_pos (by simpa using hb), h]

/-- C7 witness: the unknown base "ZZZ" yields the default table. -/
theorem C7_unknown_base_witness :
    get_sample_exchange_rates "ZZZ" = sample_base_rates :=
  C7_unknown_base "ZZZ" rfl

/-- C8: `get_sample_historical_rate` is deterministic: its output depends
only on the draw stream (a pure function of the seed string, hence of
(currency, days_ago)) and the arguments, not on the incoming state of the
global generator — so any two calls with the same (base, days_ago) produce
identical mappings. -/
theorem C8_determinism :
    ∀ (draw : String → Nat → ℚ) (base_currency : String) (days_ago : Nat)
      (rs1 rs2 : RandState),
      (get_sample_historical_rate_s draw base_currency days_ago rs1).1 =
        (get_sample_historical_rate_s draw base_currency days_ago rs2).1 := by
  intro draw b d rs1 rs2
  unfold get_sample_historical_rate_s
  rw [sampleHistGo_fst, sampleHistGo_fst]

/-- C9: converting a currency to itself returns the amount unchanged —
for every resolution outcome whatsoever (so no rate lookup can matter),
including negative amounts, and hence for the full `convert_currency`. -/
theorem C9_identity :
    (∀ (resolve : Except Unit (RateMapping × CacheState)) (amount : ℚ)
        (c : String),
        convert_currency_core resolve amount c c = some amount) ∧
      ∀ (env : Env) (st : CacheState) (amount : ℚ) (c : String),
        convert_currency env st amount c c = some amount := by
  constructor
  · intro resolve amount c
    simp [convert_currency_core]
  · intro env st amount c
    simp [convert_currency, convert_currency_core]

/-- C10: conversion failure is a sentinel, never an escaped exception: a
raised rate resolution yields `none`, a resolved mapping missing the
target code yields `none`, and concretely
`convert_currency(100, "USD", "ZZZ")` (offline, empty cache, so the sample
table resolves) yields `none`. -/
theorem C10_failure_sentinel :
    (∀ (amount : ℚ) (from_currency to_currency : String),
        from_currency ≠ to_currency →
        convert_currency_core (Except.error ()) amount from_currency
          to_currency = none) ∧
      (∀ (rates : RateMapping) (cst : CacheState) (amount : ℚ)
          (from_currency to_currency : String),
          from_currency ≠ to_currency →
          alookup to_currency rates = none →
          convert_currency_core (Except.ok (rates, cst)) amount
            from_currency to_currency = none) ∧
      convert_currency envOffline emptyState 100 "USD" "ZZZ" = none := by
  refine ⟨?_, ?_, by decide⟩
  · intro amount f t h
    simp [convert_currency_core, h]
  · intro rates cst amount f t h hl
    simp [convert_currency_core, h, hl]

/-- C10 witness: the two failure branches at concrete inputs. -/
theorem C10_failure_witness :
    convert_currency_core (Except.error ()) 5 "USD" "EUR" = none ∧
      convert_currency_core (Except.ok ([("USD", 1)], emptyState)) 7 "USD"
        "ZZZ" = none :=
  ⟨C10_failure_sentinel.1 5 "USD" "EUR" (by decide),
   C10_failure_sentinel.2.1 [("USD", 1)] emptyState 7 "USD" "ZZZ"
     (by decide) rfl⟩

/-- C4 counterexample: the claim as stated is false for
`get_sample_historical_rate` — with the admissible draw constantly 0.03
(inside the ±3% range of `uniform(-0.03, 0.03)`), the USD entry of the
USD-based historical sample for `days_ago = 0` is 1.03, not 1.0. -/
theorem C4_hist_base_not_one :
    (∀ s n, -(3/100 : ℚ) ≤ (fun (_ : String) (_ : Nat) => (3/100 : ℚ)) s n ∧
        (fun (_ : String) (_ : Nat) => (3/100 : ℚ)) s n ≤ 3/100) ∧
      alookup "USD"
          (get_sample_historical_rate (fun _ _ => 3/100) "USD" 0) =
        some (1 * (1 + 3/100)) ∧
      (1 * (1 + 3/100) : ℚ) ≠ 1 := by
  refine ⟨fun s n => by norm_num, rfl, by norm_num⟩

/-- C4 amended: `get_sample_exchange_rates(base)` always contains
base ↦ 1.0 when the base is in the fixed table, but
`get_sample_historical_rate(base, days_ago)` contains base ↦
1 + variation, where variation is the seeded draw for
`f"{base}_{days_ago}"` — equal to 1.0 only when that draw is zero. -/
theorem C4_base_entry_amended :
    (∀ base_currency base_value,
        alookup base_currency sample_base_rates = some base_value →
        alookup base_currency (get_sample_exchange_rates base_currency) =
          some 1) ∧
      ∀ (draw : String → Nat → ℚ) (base_currency : String)
        (base_value : ℚ) (days_ago : Nat),
        alookup base_currency sample_base_rates = some base_value →
        alookup base_currency
            (get_sample_historical_rate draw base_currency days_ago) =
          some (1 + draw (base_currency ++ "_" ++ toString days_ago) 0) := by
  refine ⟨base_entry_one, ?_⟩
  intro draw b bv d h
  unfold get_sample_historical_rate get_sample_historical_rate_s
  rw [sampleHistGo_fst,
    alookup_map_keydep
      (fun c r => r * (1 + draw (c ++ "_" ++ toString d) 0))
      (get_sample_exchange_rates b) b,
    base_entry_one b bv h]
  simp [one_mul]

/-- C4 witness: both parts at base EUR (draw 0.01, days_ago 2 for the
historical part). -/
theorem C4_base_entry_witness :
    alookup "EUR" (get_sample_exchange_rates "EUR") = some 1 ∧
      alookup "EUR" (get_sample_historical_rate (fun _ _ => 1/100) "EUR" 2) =
        some (1 + 1/100) :=
  ⟨C4_base_entry_amended.1 "EUR" (93/100) rfl,
   C4_base_entry_amended.2 (fun _ _ => 1/100) "EUR" (93/100) 2 rfl⟩

/-- C5 counterexample: the claim as stated fails at the in-scope key
(historical, "USD", 0) — after `save_to_cache('historical_rates', {})` at
time 50 the entry is stored with its timestamp, yet a load at time 60
(well within the 24-hour threshold) returns no value and reports
`is_expired == true`, because `load_from_cache`'s `and days` guard treats
the day-count 0 as falsy and skips both tiers. -/
theorem C5_zero_days_entry :
    alookup (histck "USD" 0) stZeroDays.histMem = some [] ∧
      alookup (histkey (histck "USD" 0)) stZeroDays.lastUpd = some 50 ∧
      ((60 : ℤ) - 50 ≤ cache_expiry_historical) ∧
      (load_from_cache_hist true 60 stZeroDays "USD" 0).1 = none ∧
      (load_from_cache_hist true 60 stZeroDays "USD" 0).2.1 = true :=
  ⟨rfl, rfl, by decide, rfl, rfl⟩

/-- C5 amended: for every current-rates key and every historical key with
a non-zero day-count, `load_from_cache` returns the stored entry's value
together with the expiry flag `now - timestamp > threshold` (1 hour for
current rates, 24 hours for historical series) — the value is returned
even when expired; stated for both tiers of both cache kinds.  For the
one degenerate key excluded, the historical key with day-count 0, the
falsy-day-count guard makes `load_from_cache` return (absent, expired)
regardless of any stored entry or its age (final conjunct). -/
theorem C5_expiry :
    (∀ (dirOk : Bool) (now : ℤ) (st : CacheState) (base_currency : String)
        (v : RateMapping) (t : ℤ),
        alookup base_currency st.exMem = some v →
        alookup (exkey base_currency) st.lastUpd = some t →
        load_from_cache_ex dirOk now st base_currency =
          (some v, decide (now - t > cache_expiry_exchange), st)) ∧
      (∀ (now : ℤ) (st : CacheState) (base_currency : String)
          (v : RateMapping) (ts : ℤ)
          (file : List (String × (RateMapping × ℤ))),
          alookup base_currency st.exMem = none →
          st.exDisk = some file →
          alookup base_currency file = some (v, ts) →
          (load_from_cache_ex true now st base_currency).1 = some v ∧
            (load_from_cache_ex true now st base_currency).2.1 =
              decide (now - ts > cache_expiry_exchange)) ∧
      (∀ (dirOk : Bool) (now : ℤ) (st : CacheState) (base_currency : String)
          (days : Nat) (v : HistSeries) (t : ℤ),
          days ≠ 0 →
          alookup (histck base_currency days) st.histMem = some v →
          alookup (histkey (histck base_currency days)) st.lastUpd =
            some t →
          load_from_cache_hist dirOk now st base_currency days =
            (some v, decide (now - t > cache_expiry_historical), st)) ∧
      (∀ (now : ℤ) (st : CacheState) (base_currency : String) (days : Nat)
          (v : HistSeries) (ts : ℤ)
          (file : List (String × (HistSeries × ℤ))),
          days ≠ 0 →
          alookup (histck base_currency days) st.histMem = none →
          st.histDisk = some file →
          alookup (histck base_currency days) file = some (v, ts) →
          (load_from_cache_hist true now st base_currency days).1 = some v ∧
            (load_from_cache_hist true now st base_currency days).2.1 =
              decide (now - ts > cache_expiry_historical)) ∧
      ∀ (dirOk : Bool) (now : ℤ) (st : CacheState) (base_currency : String),
        load_from_cache_hist dirOk now st base_currency 0 =
          (none, true, st) :=
  ⟨load_ex_mem_lookup, load_ex_disk_lookup, load_hist_mem_lookup,
   load_hist_disk_lookup, fun _ _ _ _ => rfl⟩

/-- C5 witness: a memory-tier hit within the threshold (fresh) and a
disk-tier hit past the 24-hour threshold (expired yet still returning the
value). -/
theorem C5_expiry_witness :
    load_from_cache_ex true 5000 stWitness "USD" =
        (some [("EUR", 93/100)],
         decide ((5000 : ℤ) - 100 > cache_expiry_exchange), stWitness) ∧
      (load_from_cache_hist true 90000 stWitnessDisk "USD" 2).1 =
          some [(5, [("USD", 1)]), (4, [("USD", 1)])] ∧
        (load_from_cache_hist true 90000 stWitnessDisk "USD" 2).2.1 =
          decide ((90000 : ℤ) - 200 > cache_expiry_historical) :=
  ⟨C5_expiry.1 true 5000 stWitness "USD" [("EUR", 93/100)] 100 rfl rfl,
   C5_expiry.2.2.2.1 90000 stWitnessDisk "USD" 2
     [(5, [("USD", 1)]), (4, [("USD", 1)])] 200
     [(histck "USD" 2, ([(5, [("USD", 1)]), (4, [("USD", 1)])], 200))]
     (by decide) rfl rfl rfl⟩

/-- C3 counterexample: the claim as stated fails for the historical kind
with an empty payload — `save_to_cache('historical_rates', {})` stores
under day-count 0, which `load_from_cache` treats as falsy, so the
immediate reload of the same key returns (absent, expired) instead of the
just-written value. -/
theorem C3_empty_hist_payload :
    (load_from_cache_hist true 0
        (save_to_cache_hist envOffline emptyState "USD"
          ([] : HistSeries)).2 "USD" (List.length ([] : HistSeries))).1 =
        none ∧
      (load_from_cache_hist true 0
          (save_to_cache_hist envOffline emptyState "USD"
            ([] : HistSeries)).2 "USD"
          (List.length ([] : HistSeries))).2.1 = true := by
  exact ⟨rfl, rfl⟩

/-- C3 amended: a `save_to_cache` followed by a `load_from_cache` of the
same key within the expiry threshold observes the just-written value as
unexpired via the memory tier, for every prior state and every disk
failure mode — for every current-rates payload, and for every NON-EMPTY
historical payload (an empty historical series is stored under the falsy
day-count 0 and is unobservable through `load_from_cache`). -/
theorem C3_roundtrip_amended :
    (∀ (env : Env) (st : CacheState) (base_currency : String)
        (v : RateMapping) (t2 : ℤ),
        t2 - env.now ≤ cache_expiry_exchange →
        load_from_cache_ex env.dirOk t2
            (save_to_cache_ex env st base_currency v).2 base_currency =
          (some v, false, (save_to_cache_ex env st base_currency v).2)) ∧
      ∀ (env : Env) (st : CacheState) (base_currency : String)
        (v : HistSeries) (t2 : ℤ),
        v ≠ [] →
        t2 - env.now ≤ cache_expiry_historical →
        load_from_cache_hist env.dirOk t2
            (save_to_cache_hist env st base_currency v).2 base_currency
            v.length =
          (some v, false, (save_to_cache_hist env st base_currency v).2) := by
  constructor
  · intro env st b v t2 h
    obtain ⟨hm, hl⟩ := save_to_cache_ex_mem env st b v
    have h1 : alookup b ((save_to_cache_ex env st b v).2).exMem = some v := by
      rw [hm]; exact alookup_upsert_self _ _ _
    have h2 : alookup (exkey b) ((save_to_cache_ex env st b v).2).lastUpd =
        some env.now := by
      rw [hl]; exact alookup_upsert_self _ _ _
    rw [load_ex_mem_lookup env.dirOk t2 _ b v env.now h1 h2,
      decide_eq_false (not_lt.2 h)]
  · intro env st b v t2 hv h
    have hd : v.length ≠ 0 := fun hh => hv (List.length_eq_zero.1 hh)
    obtain ⟨hm, hl⟩ := save_to_cache_hist_mem env st b v
    have h1 : alookup (histck b v.length)
        ((save_to_cache_hist env st b v).2).histMem = some v := by
      rw [hm]; exact alookup_upsert_self _ _ _
    have h2 : alookup (histkey (histck b v.length))
        ((save_to_cache_hist env st b v).2).lastUpd = some env.now := by
      rw [hl]; exact alookup_upsert_self _ _ _
    rw [load_hist_mem_lookup env.dirOk t2 _ b v.length v env.now hd h1 h2,
      decide_eq_false (not_lt.2 h)]

/-- C3 witness: round-trips at concrete payloads and times, one per cache
kind (times 10 and 20 against save time 0, inside both thresholds). -/
theorem C3_roundtrip_witness :
    load_from_cache_ex envOffline.dirOk 10
        (save_to_cache_ex envOffline emptyState "USD"
          [("EUR", 93/100)]).2 "USD" =
      (some [("EUR", 93/100)], false,
       (save_to_cache_ex envOffline emptyState "USD"
         [("EUR", 93/100)]).2) ∧
      load_from_cache_hist envOffline.dirOk 20
          (save_to_cache_hist envOffline emptyState "USD"
            [(0, [("USD", 1)])]).2 "USD"
          (List.length [((0 : Int), [("USD", (1 : ℚ))])]) =
        (some [(0, [("USD", 1)])], false,
         (save_to_cache_hist envOffline emptyState "USD"
           [(0, [("USD", 1)])]).2) :=
  ⟨C3_roundtrip_amended.1 envOffline emptyState "USD" [("EUR", 93/100)] 10
     (by decide),
   C3_roundtrip_amended.2 envOffline emptyState "USD" [(0, [("USD", 1)])] 20
     (by simp) (by decide)⟩

/-- C2 counterexample: the claim as stated is false — when the API answers
`result == 'success'` with an empty `rates` object (and an update time),
`get_exchange_rates` returns that empty mapping as-is. -/
theorem C2_empty_api_rates :
    (get_exchange_rates envEmptyApi emptyState "USD" false).1 = [] ∧
      apiEmptySuccess envEmptyApi.api = true :=
  ⟨rfl, rfl⟩

/-- C2 amended: (1) for every base currency, force flag, cache state and
environment whose API response is not a success carrying an empty rates
object with an update time, `get_exchange_rates` returns a non-empty
mapping; and the sample table is the guaranteed last resort: on a full
cache miss, (2) when the network is unreachable, and (3) when the network
is up but the fetch fails (HTTP error, malformed body, unsuccessful
result, or missing rates field), the result is exactly
`get_sample_exchange_rates(base)` with sample provenance. -/
theorem C2_nonempty_amended :
    (∀ (env : Env) (st : CacheState) (base_currency : String)
        (force_refresh : Bool),
        apiEmptySuccess env.api = false →
        (get_exchange_rates env st base_currency force_refresh).1 ≠ []) ∧
      (∀ (env : Env) (st : CacheState) (base_currency : String)
          (force_refresh : Bool),
          (load_from_cache_ex env.dirOk env.now st base_currency).1 = none →
          env.network = false →
          get_exchange_rates env st base_currency force_refresh =
            (get_sample_exchange_rates base_currency, Provenance.sample,
             st)) ∧
      ∀ (env : Env) (st : CacheState) (base_currency : String)
        (force_refresh : Bool),
        (load_from_cache_ex env.dirOk env.now st base_currency).1 = none →
        env.network = true →
        apiFetchFailed env.api = true →
        get_exchange_rates env st base_currency force_refresh =
          (get_sample_exchange_rates base_currency, Provenance.sample, st) := by
  refine ⟨?_, ?_, ?_⟩
  · intro env st b force h
    cases force with
    | true =>
      simpa [get_exchange_rates] using
        refresh_exchange_rates_ne_nil env st b h
    | false =>
      rcases hload : load_from_cache_ex env.dirOk env.now st b with
        ⟨c, e, st1⟩
      cases hc : truthy c && !e with
      | true =>
        have h1 : truthy c = true := by
          cases htc : truthy c
          · rw [htc] at hc; simp at hc
          · rfl
        simp only [get_exchange_rates, Bool.false_eq_true, if_false, hload,
          hc, if_true]
        exact truthy_getD_ne_nil c h1
      | false =>
        simp only [get_exchange_rates, Bool.false_eq_true, if_false, hload,
          hc]
        simpa using refresh_exchange_rates_ne_nil env st1 b h
  · intro env st b force hmiss hnet
    have hload := load_ex_miss env.dirOk env.now st b hmiss
    have hfb := fallback_offline_miss env st b hmiss
    have hrefresh : refresh_exchange_rates env st b =
        (get_sample_exchange_rates b, Provenance.sample, st) := by
      unfold refresh_exchange_rates
      rw [hnet]
      simpa using hfb
    cases force with
    | true => simpa [get_exchange_rates] using hrefresh
    | false =>
      simp only [get_exchange_rates, Bool.false_eq_true, if_false, hload,
        truthy, Bool.false_and, hrefresh]
  · intro env st b force hmiss hnet hfail
    have hload := load_ex_miss env.dirOk env.now st b hmiss
    have hfb := fallback_offline_miss env st b hmiss
    have hrefresh : refresh_exchange_rates env st b =
        (get_sample_exchange_rates b, Provenance.sample, st) := by
      unfold refresh_exchange_rates
      rw [hnet]
      cases hapi : env.api with
      | httpError => simpa using hfb
      | parseError => simpa using hfb
      | payload ok rates? ts? =>
        rw [hapi] at hfail
        cases ok with
        | false => simpa using hfb
        | true =>
          cases rates? with
          | none => simpa using hfb
          | some rates => simp [apiFetchFailed] at hfail
    cases force with
    | true => simpa [get_exchange_rates] using hrefresh
    | false =>
      simp only [get_exchange_rates, Bool.false_eq_true, if_false, hload,
        truthy, Bool.false_and, hrefresh]

/-- C2 witness: offline with an empty cache, the result is non-empty and
is exactly the sample table with sample provenance. -/
theorem C2_nonempty_witness :
    (get_exchange_rates envOffline emptyState "USD" false).1 ≠ [] ∧
      get_exchange_rates envOffline emptyState "USD" false =
        (get_sample_exchange_rates "USD", Provenance.sample, emptyState) :=
  ⟨C2_nonempty_amended.1 envOffline emptyState "USD" false rfl,
   C2_nonempty_amended.2.1 envOffline emptyState "USD" false rfl rfl⟩

/-- C1: the completeness claim fails on the code — a day-9 call from a
fresh process assembles and caches exactly the 7 dates 9..3; the next
day's forced call, with every per-day fetch failing softly, assembles the
7 window dates 10..4 and then backfills EVERY cached date (not only
missing dates of the window), returning 8 distinct date keys for
`days = 7`. -/
theorem C1_extra_dates :
    ((get_historical_rates envYesterday emptyState "USD" 7 false).1.map
        Prod.fst = [9, 8, 7, 6, 5, 4, 3]) ∧
      ((get_historical_rates envOvershoot stOvershoot "USD" 7 true).1.map
          Prod.fst = [10, 9, 8, 7, 6, 5, 4, 3]) ∧
        ((get_historical_rates envOvershoot stOvershoot "USD" 7 true).1.map
            Prod.fst).Nodup :=
  ⟨by decide, by decide, by decide⟩
